import Mathlib

/-!
Verification of the counter bookkeeping and logging wrapper of
go-loggedrwmutex (src/loggedrwmutex.go).

The Go struct LoggedSyncRWMutex wraps a delegate sync.RWMutex with six
uint64 counters protected by an internal mutex `mu`, per-instance debug
flags, and two process-wide flags (GlobalDebug, DisableLogging).  The
delegate lock itself is external (assumed correct by the spec), so each
operation is embedded as a pure state transformer on the counter state
that additionally records the ordered sequence of visible events it
performs: acquire/release of the internal mutex, individual counter
writes, emitted log lines (as the data interpolated into the format
string), and the calls into the delegate sync.RWMutex.  uint64 values
are embedded as Nat with arithmetic taken modulo 2^64.
-/

namespace LoggedRW

/-- 2 ^ 64, the modulus of Go uint64 arithmetic. -/
def U64 : Nat := 18446744073709551616

/-- Go uint64 increment `x++`: wraps modulo 2 ^ 64. -/
def inc64 (x : Nat) : Nat := (x + 1) % U64

/-- Go uint64 decrement `x--`: wraps modulo 2 ^ 64 (no underflow check). -/
def dec64 (x : Nat) : Nat := (x + (U64 - 1)) % U64

/-- Go uint64 subtraction `a - b`: wraps modulo 2 ^ 64. -/
def sub64 (a b : Nat) : Nat := (a + U64 - b) % U64

/-- The two process-wide flags of the package (loggedrwmutex.go lines 10-11):
`GlobalDebug` and `DisableLogging`.  They are read, never written, by the
operations, so they are passed as an explicit parameter held constant. -/
structure GlobalFlags where
  globalDebug : Bool
  disableLogging : Bool
deriving DecidableEq

/-- The six uint64 counter fields of LoggedSyncRWMutex, used to tag
individual counter-write events. -/
inductive CounterField
  | lockedCount
  | rLockedCount
  | totalLocked
  | totalUnlocked
  | totalrLocked
  | totalrUnlocked
deriving DecidableEq

/-- One emitted diagnostic line, modelled as the data the Go fmt.Printf
call interpolates into its format string. -/
inductive LogMsg
  | lockMsg (name : String) (lockedCount totalLocked : Nat)
  | unlockMsg (name : String) (lockedCount totalUnlocked : Nat)
  | rlockMsg (name : String) (rLockedCount totalrLocked : Nat)
  | runlockMsg (name : String) (rLockedCount totalrUnlocked : Nat)
  | statusMsg (name : String)
      (lockedCount rLockedCount totalLocked totalUnlocked totalrLocked totalrUnlocked : Nat)
deriving DecidableEq

/-- A visible event of one operation, in program order: internal mutex
`m.mu` acquire/release, a write to one counter field, an emitted log
line, or a call into the delegate sync.RWMutex. -/
inductive Event
  | muLock
  | muUnlock
  | upd (f : CounterField)
  | emit (msg : LogMsg)
  | rwLock
  | rwUnlock
  | rwRLock
  | rwRUnlock
deriving DecidableEq

/-- The instrumented mutex state: name, per-instance debug flags and the
six uint64 counters (loggedrwmutex.go lines 36-51).  The two embedded Go
mutexes carry no counter state of their own and appear only as events. -/
structure LoggedSyncRWMutex where
  name : String
  debugAll : Bool
  debugLock : Bool
  debugUnlock : Bool
  debugRLock : Bool
  debugRUnlock : Bool
  lockedCount : Nat
  rLockedCount : Nat
  totalLocked : Nat
  totalUnlocked : Nat
  totalrLocked : Nat
  totalrUnlocked : Nat
deriving DecidableEq

/-- A freshly constructed lock, `&LoggedSyncRWMutex{Name: name}`: Go zero
value for every other field. -/
def freshMutex (name : String) : LoggedSyncRWMutex :=
  { name := name
    debugAll := false, debugLock := false, debugUnlock := false
    debugRLock := false, debugRUnlock := false
    lockedCount := 0, rLockedCount := 0
    totalLocked := 0, totalUnlocked := 0
    totalrLocked := 0, totalrUnlocked := 0 }

/-- `Lock` (loggedrwmutex.go lines 66-78): if !DisableLogging, take `mu`,
increment lockedCount and totalLocked, print if DebugLock || DebugAll ||
GlobalDebug, release `mu`; then delegate to RWMutex.Lock. -/
def Lock (g : GlobalFlags) (m : LoggedSyncRWMutex) : LoggedSyncRWMutex × List Event :=
  if !g.disableLogging then
    let lc := inc64 m.lockedCount
    let tl := inc64 m.totalLocked
    let m' := { m with lockedCount := lc, totalLocked := tl }
    let evs := [Event.muLock, Event.upd CounterField.lockedCount, Event.upd CounterField.totalLocked]
      ++ (if m.debugLock || m.debugAll || g.globalDebug
          then [Event.emit (LogMsg.lockMsg m.name lc tl)] else [])
      ++ [Event.muUnlock, Event.rwLock]
    (m', evs)
  else
    (m, [Event.rwLock])

/-- `Unlock` (loggedrwmutex.go lines 80-92): delegate to RWMutex.Unlock
first; then, if !DisableLogging, take `mu`, decrement lockedCount,
increment totalUnlocked, print if DebugUnlock || DebugAll || GlobalDebug,
release `mu`. -/
def Unlock (g : GlobalFlags) (m : LoggedSyncRWMutex) : LoggedSyncRWMutex × List Event :=
  if !g.disableLogging then
    let lc := dec64 m.lockedCount
    let tu := inc64 m.totalUnlocked
    let m' := { m with lockedCount := lc, totalUnlocked := tu }
    let evs := [Event.rwUnlock, Event.muLock,
        Event.upd CounterField.lockedCount, Event.upd CounterField.totalUnlocked]
      ++ (if m.debugUnlock || m.debugAll || g.globalDebug
          then [Event.emit (LogMsg.unlockMsg m.name lc tu)] else [])
      ++ [Event.muUnlock]
    (m', evs)
  else
    (m, [Event.rwUnlock])

/-- `RLock` (loggedrwmutex.go lines 94-106): if !DisableLogging, take `mu`,
increment rLockedCount and totalrLocked, print if DebugRLock || DebugAll ||
GlobalDebug, release `mu`; then delegate to RWMutex.RLock. -/
def RLock (g : GlobalFlags) (m : LoggedSyncRWMutex) : LoggedSyncRWMutex × List Event :=
  if !g.disableLogging then
    let rc := inc64 m.rLockedCount
    let tr := inc64 m.totalrLocked
    let m' := { m with rLockedCount := rc, totalrLocked := tr }
    let evs := [Event.muLock, Event.upd CounterField.rLockedCount, Event.upd CounterField.totalrLocked]
      ++ (if m.debugRLock || m.debugAll || g.globalDebug
          then [Event.emit (LogMsg.rlockMsg m.name rc tr)] else [])
      ++ [Event.muUnlock, Event.rwRLock]
    (m', evs)
  else
    (m, [Event.rwRLock])

/-- `RUnlock` (loggedrwmutex.go lines 108-120): delegate to RWMutex.RUnlock
first; then, if !DisableLogging, take `mu`, decrement rLockedCount,
increment totalrUnlocked, print if DebugRUnlock || DebugAll || GlobalDebug,
release `mu`. -/
def RUnlock (g : GlobalFlags) (m : LoggedSyncRWMutex) : LoggedSyncRWMutex × List Event :=
  if !g.disableLogging then
    let rc := dec64 m.rLockedCount
    let tu := inc64 m.totalrUnlocked
    let m' := { m with rLockedCount := rc, totalrUnlocked := tu }
    let evs := [Event.rwRUnlock, Event.muLock,
        Event.upd CounterField.rLockedCount, Event.upd CounterField.totalrUnlocked]
      ++ (if m.debugRUnlock || m.debugAll || g.globalDebug
          then [Event.emit (LogMsg.runlockMsg m.name rc tu)] else [])
      ++ [Event.muUnlock]
    (m', evs)
  else
    (m, [Event.rwRUnlock])

/-- `PrintStatus` (loggedrwmutex.go lines 54-64).  The body begins with
`if !DisableLogging { return }`, so with DisableLogging false it returns
at once without touching `mu` or the counters; only with DisableLogging
true does it take `mu` and print when a count is nonzero or forceprint.
The named results (locked, rlocked) are never assigned on any path, so
both keep their zero value false.  State is never modified. -/
def PrintStatus (g : GlobalFlags) (m : LoggedSyncRWMutex) (forceprint : Bool) :
    (Bool × Bool) × List Event :=
  if !g.disableLogging then
    ((false, false), [])
  else
    let evs := [Event.muLock]
      ++ (if 0 < m.lockedCount ∨ 0 < m.rLockedCount ∨ forceprint = true
          then [Event.emit (LogMsg.statusMsg m.name m.lockedCount m.rLockedCount
                  m.totalLocked m.totalUnlocked m.totalrLocked m.totalrUnlocked)]
          else [])
      ++ [Event.muUnlock]
    ((false, false), evs)

/-- One public operation of the wrapper, for serial traces. -/
inductive Op
  | lock
  | unlock
  | rlock
  | runlock
  | printStatus (forceprint : Bool)
deriving DecidableEq

/-- One serial step: the new state, the events performed, and the values
returned to the caller (only PrintStatus returns anything). -/
def step (g : GlobalFlags) (m : LoggedSyncRWMutex) :
    Op → LoggedSyncRWMutex × List Event × List (Bool × Bool)
  | Op.lock => ((Lock g m).1, (Lock g m).2, [])
  | Op.unlock => ((Unlock g m).1, (Unlock g m).2, [])
  | Op.rlock => ((RLock g m).1, (RLock g m).2, [])
  | Op.runlock => ((RUnlock g m).1, (RUnlock g m).2, [])
  | Op.printStatus fp => (m, (PrintStatus g m fp).2, [(PrintStatus g m fp).1])

/-- Run a serial trace of operations with the process-wide flags held
constant, accumulating events and returned values in order. -/
def run (g : GlobalFlags) (m : LoggedSyncRWMutex) :
    List Op → LoggedSyncRWMutex × List Event × List (Bool × Bool)
  | [] => (m, [], [])
  | op :: rest =>
    let r := step g m op
    let rr := run g r.1 rest
    (rr.1, r.2.1 ++ rr.2.1, r.2.2 ++ rr.2.2)

/-- Final state after a serial trace. -/
def runState (g : GlobalFlags) (m : LoggedSyncRWMutex) (ops : List Op) : LoggedSyncRWMutex :=
  (run g m ops).1

/-- All values returned by PrintStatus calls during a serial trace. -/
def runOuts (g : GlobalFlags) (m : LoggedSyncRWMutex) (ops : List Op) : List (Bool × Bool) :=
  (run g m ops).2.2

/-- The trace of N Lock/Unlock pairs. -/
def lockPairs : Nat → List Op
  | 0 => []
  | n + 1 => Op.lock :: Op.unlock :: lockPairs n

/-- The trace of N RLock/RUnlock pairs. -/
def rlockPairs : Nat → List Op
  | 0 => []
  | n + 1 => Op.rlock :: Op.runlock :: rlockPairs n

/-- Correctly paired usage of a serial trace, given el pending exclusive
and sl pending shared holds: every Unlock/RUnlock is preceded by a
matching completed Lock/RLock. -/
def wellPairedFrom (el sl : Nat) : List Op → Bool
  | [] => true
  | Op.lock :: rest => wellPairedFrom (el + 1) sl rest
  | Op.unlock :: rest => decide (0 < el) && wellPairedFrom (el - 1) sl rest
  | Op.rlock :: rest => wellPairedFrom el (sl + 1) rest
  | Op.runlock :: rest => decide (0 < sl) && wellPairedFrom el (sl - 1) rest
  | Op.printStatus _ :: rest => wellPairedFrom el sl rest

/-- Events that are either a counter write or a delegate sync.RWMutex
call: the ones whose relative order the asymmetric-ordering design rule
constrains. -/
def isCore : Event → Bool
  | Event.upd _ => true
  | Event.rwLock => true
  | Event.rwUnlock => true
  | Event.rwRLock => true
  | Event.rwRUnlock => true
  | _ => false

/-- Whether an event is an emitted log line. -/
def isEmit : Event → Bool
  | Event.emit _ => true
  | _ => false

/-- The six counter values of a state, in declaration order. -/
def counters (m : LoggedSyncRWMutex) : Nat × Nat × Nat × Nat × Nat × Nat :=
  (m.lockedCount, m.rLockedCount, m.totalLocked, m.totalUnlocked, m.totalrLocked, m.totalrUnlocked)

/-- All six counters are in uint64 range. -/
def GoodState (m : LoggedSyncRWMutex) : Prop :=
  m.lockedCount < U64 ∧ m.rLockedCount < U64 ∧ m.totalLocked < U64 ∧
  m.totalUnlocked < U64 ∧ m.totalrLocked < U64 ∧ m.totalrUnlocked < U64

/-- The quiescent-state counter invariant, with the subtraction performed
in Go uint64 arithmetic: totalLocked - totalUnlocked == lockedCount and
totalrLocked - totalrUnlocked == rLockedCount. -/
def CounterInv (m : LoggedSyncRWMutex) : Prop :=
  sub64 m.totalLocked m.totalUnlocked = m.lockedCount ∧
  sub64 m.totalrLocked m.totalrUnlocked = m.rLockedCount

/-! ## Theorems -/

theorem runState_cons (g : GlobalFlags) (m : LoggedSyncRWMutex) (op : Op) (ops : List Op) :
    runState g m (op :: ops) = runState g (step g m op).1 ops := rfl

theorem PrintStatus_fst (g : GlobalFlags) (m : LoggedSyncRWMutex) (fp : Bool) :
    (PrintStatus g m fp).1 = (false, false) := by
  unfold PrintStatus
  split
  · rfl
  · rfl

theorem Lock_state (g : GlobalFlags) (m : LoggedSyncRWMutex) (h : g.disableLogging = false) :
    (Lock g m).1 =
      { m with lockedCount := inc64 m.lockedCount, totalLocked := inc64 m.totalLocked } := by
  simp only [Lock, h, Bool.not_false, if_true, ite_true]

theorem Unlock_state (g : GlobalFlags) (m : LoggedSyncRWMutex) (h : g.disableLogging = false) :
    (Unlock g m).1 =
      { m with lockedCount := dec64 m.lockedCount, totalUnlocked := inc64 m.totalUnlocked } := by
  simp only [Unlock, h, Bool.not_false, if_true, ite_true]

theorem RLock_state (g : GlobalFlags) (m : LoggedSyncRWMutex) (h : g.disableLogging = false) :
    (RLock g m).1 =
      { m with rLockedCount := inc64 m.rLockedCount, totalrLocked := inc64 m.totalrLocked } := by
  simp only [RLock, h, Bool.not_false, if_true, ite_true]

theorem RUnlock_state (g : GlobalFlags) (m : LoggedSyncRWMutex) (h : g.disableLogging = false) :
    (RUnlock g m).1 =
      { m with rLockedCount := dec64 m.rLockedCount, totalrUnlocked := inc64 m.totalrUnlocked } := by
  simp only [RUnlock, h, Bool.not_false, if_true, ite_true]

theorem ops_state_skip (g : GlobalFlags) (m : LoggedSyncRWMutex) (h : g.disableLogging = true) :
    (Lock g m).1 = m ∧ (Unlock g m).1 = m ∧ (RLock g m).1 = m ∧ (RUnlock g m).1 = m := by
  simp only [Lock, Unlock, RLock, RUnlock, h, Bool.not_true, if_false, ite_false]
  exact ⟨rfl, rfl, rfl, rfl⟩

theorem runOuts_cons (g : GlobalFlags) (m : LoggedSyncRWMutex) (op : Op) (ops : List Op) :
    runOuts g m (op :: ops) = (step g m op).2.2 ++ runOuts g (step g m op).1 ops := rfl

/-- From any state with lockedCount = 0 and in-range exclusive totals,
n Lock/Unlock pairs add n (mod 2 ^ 64) to totalLocked and totalUnlocked
and return lockedCount to 0. -/
theorem lockPairs_counts (g : GlobalFlags) (h : g.disableLogging = false) (n : Nat) :
    ∀ m : LoggedSyncRWMutex, m.lockedCount = 0 → m.totalLocked < U64 → m.totalUnlocked < U64 →
      (runState g m (lockPairs n)).totalLocked = (m.totalLocked + n) % U64 ∧
      (runState g m (lockPairs n)).totalUnlocked = (m.totalUnlocked + n) % U64 ∧
      (runState g m (lockPairs n)).lockedCount = 0 := by
  induction n with
  | zero =>
    intro m h0 hl hu
    simp only [lockPairs, runState, run]
    simp only [U64] at hl hu
    refine ⟨?_, ?_, h0⟩ <;> simp only [U64] <;> omega
  | succ k ih =>
    intro m h0 hl hu
    simp only [lockPairs]
    rw [runState_cons, runState_cons]
    have e : (step g (step g m Op.lock).1 Op.unlock).1 =
        { m with lockedCount := dec64 (inc64 m.lockedCount),
                 totalLocked := inc64 m.totalLocked,
                 totalUnlocked := inc64 m.totalUnlocked } := by
      simp [step, Lock, Unlock, h]
    rw [e]
    have hr := ih
      { m with lockedCount := dec64 (inc64 m.lockedCount),
               totalLocked := inc64 m.totalLocked,
               totalUnlocked := inc64 m.totalUnlocked }
      (by rw [h0]; show dec64 (inc64 0) = 0; decide)
      (by simp only [inc64]; exact Nat.mod_lt _ (by norm_num [U64]))
      (by simp only [inc64]; exact Nat.mod_lt _ (by norm_num [U64]))
    refine ⟨?_, ?_, hr.2.2⟩
    · rw [hr.1]; simp only [inc64, U64]; omega
    · rw [hr.2.1]; simp only [inc64, U64]; omega

/-- From any state with rLockedCount = 0 and in-range shared totals,
n RLock/RUnlock pairs add n (mod 2 ^ 64) to totalrLocked and
totalrUnlocked and return rLockedCount to 0. -/
theorem rlockPairs_counts (g : GlobalFlags) (h : g.disableLogging = false) (n : Nat) :
    ∀ m : LoggedSyncRWMutex, m.rLockedCount = 0 → m.totalrLocked < U64 → m.totalrUnlocked < U64 →
      (runState g m (rlockPairs n)).totalrLocked = (m.totalrLocked + n) % U64 ∧
      (runState g m (rlockPairs n)).totalrUnlocked = (m.totalrUnlocked + n) % U64 ∧
      (runState g m (rlockPairs n)).rLockedCount = 0 := by
  induction n with
  | zero =>
    intro m h0 hl hu
    simp only [rlockPairs, runState, run]
    simp only [U64] at hl hu
    refine ⟨?_, ?_, h0⟩ <;> simp only [U64] <;> omega
  | succ k ih =>
    intro m h0 hl hu
    simp only [rlockPairs]
    rw [runState_cons, runState_cons]
    have e : (step g (step g m Op.rlock).1 Op.runlock).1 =
        { m with rLockedCount := dec64 (inc64 m.rLockedCount),
                 totalrLocked := inc64 m.totalrLocked,
                 totalrUnlocked := inc64 m.totalrUnlocked } := by
      simp [step, RLock, RUnlock, h]
    rw [e]
    have hr := ih
      { m with rLockedCount := dec64 (inc64 m.rLockedCount),
               totalrLocked := inc64 m.totalrLocked,
               totalrUnlocked := inc64 m.totalrUnlocked }
      (by rw [h0]; show dec64 (inc64 0) = 0; decide)
      (by simp only [inc64]; exact Nat.mod_lt _ (by norm_num [U64]))
      (by simp only [inc64]; exact Nat.mod_lt _ (by norm_num [U64]))
    refine ⟨?_, ?_, hr.2.2⟩
    · rw [hr.1]; simp only [inc64, U64]; omega
    · rw [hr.2.1]; simp only [inc64, U64]; omega

/-- C1, counterexample: with DisableLogging true (so the counter read under
`mu` does happen) and lockedCount = 1, PrintStatus still returns
locked = false, refuting that locked holds iff lockedCount was nonzero at
the instant of the read. -/
theorem printStatus_c1_cex :
    ¬ (∀ (g : GlobalFlags) (m : LoggedSyncRWMutex) (fp : Bool),
        (PrintStatus g m fp).1 =
          (decide (0 < m.lockedCount), decide (0 < m.rLockedCount))) := by
  intro h
  have hh := h ⟨false, true⟩ { freshMutex "T" with lockedCount := 1 } false
  revert hh
  decide

/-- C1, amended: PrintStatus returns (false, false) for every lock state,
every forcePrint and both values of DisableLogging: the named result
variables locked and rlocked are never assigned in the source body. -/
theorem printStatus_always_false (g : GlobalFlags) (m : LoggedSyncRWMutex) (fp : Bool) :
    (PrintStatus g m fp).1 = (false, false) := by
  unfold PrintStatus
  split
  · rfl
  · rfl

/-- C2, failing input: with DisableLogging = false, forcePrint = true and
lockedCount = 1, PrintStatus performs no event at all — it neither
acquires the counters lock nor emits the summary line — while the very
same call with DisableLogging = true does emit it: the guard
`if !DisableLogging { return }` is inverted relative to the flag's own
documentation. -/
theorem printStatus_c2_bug :
    (PrintStatus ⟨false, false⟩ { freshMutex "T" with lockedCount := 1 } true).2 = [] ∧
    (PrintStatus ⟨false, true⟩ { freshMutex "T" with lockedCount := 1 } true).2 =
      [Event.muLock, Event.emit (LogMsg.statusMsg "T" 1 0 0 0 0 0), Event.muUnlock] := by
  constructor
  · rfl
  · rfl

/-- C3: with DisableLogging = true, each of Lock, Unlock, RLock and
RUnlock returns the state unchanged (so all six counters are unchanged),
emits no log line, and performs exactly the corresponding delegate
sync.RWMutex call. -/
theorem disableLogging_bypass (g : GlobalFlags) (m : LoggedSyncRWMutex)
    (h : g.disableLogging = true) :
    Lock g m = (m, [Event.rwLock]) ∧
    Unlock g m = (m, [Event.rwUnlock]) ∧
    RLock g m = (m, [Event.rwRLock]) ∧
    RUnlock g m = (m, [Event.rwRUnlock]) := by
  simp [Lock, Unlock, RLock, RUnlock, h]

/-- C3, witness: the bypass behaviour at a concrete flag state and lock. -/
theorem disableLogging_bypass_witness :
    Lock ⟨false, true⟩ (freshMutex "T") = (freshMutex "T", [Event.rwLock]) ∧
    Unlock ⟨false, true⟩ (freshMutex "T") = (freshMutex "T", [Event.rwUnlock]) ∧
    RLock ⟨false, true⟩ (freshMutex "T") = (freshMutex "T", [Event.rwRLock]) ∧
    RUnlock ⟨false, true⟩ (freshMutex "T") = (freshMutex "T", [Event.rwRUnlock]) :=
  disableLogging_bypass ⟨false, true⟩ (freshMutex "T") rfl

/-- C6: with DisableLogging = false, each of the four operations emits its
debug line exactly when its own per-operation debug flag, or the
instance's DebugAll flag, or the process-wide GlobalDebug flag is set. -/
theorem debug_gating (g : GlobalFlags) (m : LoggedSyncRWMutex)
    (h : g.disableLogging = false) :
    (Lock g m).2.any isEmit = (m.debugLock || m.debugAll || g.globalDebug) ∧
    (Unlock g m).2.any isEmit = (m.debugUnlock || m.debugAll || g.globalDebug) ∧
    (RLock g m).2.any isEmit = (m.debugRLock || m.debugAll || g.globalDebug) ∧
    (RUnlock g m).2.any isEmit = (m.debugRUnlock || m.debugAll || g.globalDebug) := by
  refine ⟨?_, ?_, ?_, ?_⟩
  · cases hd : (m.debugLock || m.debugAll || g.globalDebug) <;>
      simp [Lock, h, hd, isEmit]
  · cases hd : (m.debugUnlock || m.debugAll || g.globalDebug) <;>
      simp [Unlock, h, hd, isEmit]
  · cases hd : (m.debugRLock || m.debugAll || g.globalDebug) <;>
      simp [RLock, h, hd, isEmit]
  · cases hd : (m.debugRUnlock || m.debugAll || g.globalDebug) <;>
      simp [RUnlock, h, hd, isEmit]

/-- C6, witness: at a concrete state with only DebugUnlock set, Lock emits
no line while Unlock emits one. -/
theorem debug_gating_witness :
    (Lock ⟨false, false⟩ { freshMutex "T" with debugUnlock := true }).2.any isEmit =
      (false || false || false) ∧
    (Unlock ⟨false, false⟩ { freshMutex "T" with debugUnlock := true }).2.any isEmit =
      (true || false || false) ∧
    (RLock ⟨false, false⟩ { freshMutex "T" with debugUnlock := true }).2.any isEmit =
      (false || false || false) ∧
    (RUnlock ⟨false, false⟩ { freshMutex "T" with debugUnlock := true }).2.any isEmit =
      (false || false || false) :=
  debug_gating ⟨false, false⟩ { freshMutex "T" with debugUnlock := true } rfl

/-- C7: with DisableLogging = false, projecting each operation's event
trace onto counter writes and delegate calls: in Lock and RLock both
counter updates precede the delegate acquire, and in Unlock and RUnlock
the delegate release precedes both counter updates. -/
theorem counter_delegate_ordering (g : GlobalFlags) (m : LoggedSyncRWMutex)
    (h : g.disableLogging = false) :
    (Lock g m).2.filter isCore =
      [Event.upd CounterField.lockedCount, Event.upd CounterField.totalLocked, Event.rwLock] ∧
    (RLock g m).2.filter isCore =
      [Event.upd CounterField.rLockedCount, Event.upd CounterField.totalrLocked, Event.rwRLock] ∧
    (Unlock g m).2.filter isCore =
      [Event.rwUnlock, Event.upd CounterField.lockedCount, Event.upd CounterField.totalUnlocked] ∧
    (RUnlock g m).2.filter isCore =
      [Event.rwRUnlock, Event.upd CounterField.rLockedCount, Event.upd CounterField.totalrUnlocked] := by
  refine ⟨?_, ?_, ?_, ?_⟩
  · cases hd : (m.debugLock || m.debugAll || g.globalDebug) <;>
      simp [Lock, h, hd, isCore]
  · cases hd : (m.debugRLock || m.debugAll || g.globalDebug) <;>
      simp [RLock, h, hd, isCore]
  · cases hd : (m.debugUnlock || m.debugAll || g.globalDebug) <;>
      simp [Unlock, h, hd, isCore]
  · cases hd : (m.debugRUnlock || m.debugAll || g.globalDebug) <;>
      simp [RUnlock, h, hd, isCore]

/-- C7, witness: the projected orderings at a concrete state. -/
theorem counter_delegate_ordering_witness :
    (Lock ⟨false, false⟩ (freshMutex "T")).2.filter isCore =
      [Event.upd CounterField.lockedCount, Event.upd CounterField.totalLocked, Event.rwLock] ∧
    (RLock ⟨false, false⟩ (freshMutex "T")).2.filter isCore =
      [Event.upd CounterField.rLockedCount, Event.upd CounterField.totalrLocked, Event.rwRLock] ∧
    (Unlock ⟨false, false⟩ (freshMutex "T")).2.filter isCore =
      [Event.rwUnlock, Event.upd CounterField.lockedCount, Event.upd CounterField.totalUnlocked] ∧
    (RUnlock ⟨false, false⟩ (freshMutex "T")).2.filter isCore =
      [Event.rwRUnlock, Event.upd CounterField.rLockedCount, Event.upd CounterField.totalrUnlocked] :=
  counter_delegate_ordering ⟨false, false⟩ (freshMutex "T") rfl

/-- C9: with DisableLogging = false, calling Unlock (resp. RUnlock) while
lockedCount (resp. rLockedCount) is 0 wraps the uint64 decrement to
18446744073709551615 with no underflow check; and when the DebugUnlock
flag is set the Unlock debug line reports that huge value as the active
count. -/
theorem unlock_underflow_wraps (g : GlobalFlags) (m : LoggedSyncRWMutex)
    (h : g.disableLogging = false) (h0 : m.lockedCount = 0) (h0r : m.rLockedCount = 0) :
    (Unlock g m).1.lockedCount = 18446744073709551615 ∧
    (RUnlock g m).1.rLockedCount = 18446744073709551615 ∧
    (m.debugUnlock = true →
      Event.emit (LogMsg.unlockMsg m.name 18446744073709551615 (inc64 m.totalUnlocked)) ∈
        (Unlock g m).2) := by
  refine ⟨?_, ?_, ?_⟩
  · simp [Unlock, h, h0, dec64, U64]
  · simp [RUnlock, h, h0r, dec64, U64]
  · intro hd
    simp [Unlock, h, h0, hd, dec64, U64]

/-- C9, witness: the wrap at a concrete fresh lock with DebugUnlock set. -/
theorem unlock_underflow_wraps_witness :
    (Unlock ⟨false, false⟩ { freshMutex "T" with debugUnlock := true }).1.lockedCount =
      18446744073709551615 ∧
    (RUnlock ⟨false, false⟩ { freshMutex "T" with debugUnlock := true }).1.rLockedCount =
      18446744073709551615 ∧
    Event.emit (LogMsg.unlockMsg "T" 18446744073709551615 (inc64 0)) ∈
      (Unlock ⟨false, false⟩ { freshMutex "T" with debugUnlock := true }).2 := by
  have hw := unlock_underflow_wraps ⟨false, false⟩
    { freshMutex "T" with debugUnlock := true } rfl rfl rfl
  exact ⟨hw.1, hw.2.1, hw.2.2 rfl⟩

/-- C4 (amended): for every N < 2 ^ 64, starting from a freshly
constructed lock with DisableLogging false throughout, after N serial
Lock/Unlock pairs totalLocked = totalUnlocked = N and lockedCount = 0,
and after N serial RLock/RUnlock pairs totalrLocked = totalrUnlocked = N
and rLockedCount = 0.  (At N = 2 ^ 64 the uint64 totals wrap.) -/
theorem pairs_totals (g : GlobalFlags) (name : String) (N : Nat)
    (h : g.disableLogging = false) (hN : N < U64) :
    (runState g (freshMutex name) (lockPairs N)).totalLocked = N ∧
    (runState g (freshMutex name) (lockPairs N)).totalUnlocked = N ∧
    (runState g (freshMutex name) (lockPairs N)).lockedCount = 0 ∧
    (runState g (freshMutex name) (rlockPairs N)).totalrLocked = N ∧
    (runState g (freshMutex name) (rlockPairs N)).totalrUnlocked = N ∧
    (runState g (freshMutex name) (rlockPairs N)).rLockedCount = 0 := by
  have hpos : (0 : Nat) < U64 := by norm_num [U64]
  have hx := lockPairs_counts g h N (freshMutex name) rfl hpos hpos
  have hsh := rlockPairs_counts g h N (freshMutex name) rfl hpos hpos
  have hmod : (0 + N) % U64 = N := by
    rw [Nat.zero_add]; exact Nat.mod_eq_of_lt hN
  exact ⟨by rw [hx.1]; exact hmod, by rw [hx.2.1]; exact hmod, hx.2.2,
    by rw [hsh.1]; exact hmod, by rw [hsh.2.1]; exact hmod, hsh.2.2⟩

/-- C4, witness: three Lock/Unlock and three RLock/RUnlock pairs on a
fresh lock. -/
theorem pairs_totals_witness :
    (runState ⟨false, false⟩ (freshMutex "T") (lockPairs 3)).totalLocked = 3 ∧
    (runState ⟨false, false⟩ (freshMutex "T") (lockPairs 3)).totalUnlocked = 3 ∧
    (runState ⟨false, false⟩ (freshMutex "T") (lockPairs 3)).lockedCount = 0 ∧
    (runState ⟨false, false⟩ (freshMutex "T") (rlockPairs 3)).totalrLocked = 3 ∧
    (runState ⟨false, false⟩ (freshMutex "T") (rlockPairs 3)).totalrUnlocked = 3 ∧
    (runState ⟨false, false⟩ (freshMutex "T") (rlockPairs 3)).rLockedCount = 0 :=
  pairs_totals ⟨false, false⟩ "T" 3 rfl (by norm_num [U64])

/-- C4, counterexample: after exactly 2 ^ 64 Lock/Unlock pairs the uint64
lifetime total has wrapped to 0, which is not N, so the claim fails for
N = 2 ^ 64. -/
theorem pairs_totals_cex :
    (runState ⟨false, false⟩ (freshMutex "T") (lockPairs U64)).totalLocked = 0 ∧
    (0 : Nat) ≠ U64 := by
  have hpos : (0 : Nat) < U64 := by norm_num [U64]
  have hx := lockPairs_counts ⟨false, false⟩ rfl U64 (freshMutex "T") rfl hpos hpos
  refine ⟨?_, by norm_num [U64]⟩
  rw [hx.1]
  show (0 + U64) % U64 = 0
  rw [Nat.zero_add, Nat.mod_self]

/-- Each serial step keeps all six counters in uint64 range and preserves
the quiescent counter invariant, for either value of DisableLogging. -/
theorem step_preserves_inv (g : GlobalFlags) (m : LoggedSyncRWMutex) (op : Op)
    (hg : GoodState m) (hi : CounterInv m) :
    GoodState (step g m op).1 ∧ CounterInv (step g m op).1 := by
  obtain ⟨g1, g2, g3, g4, g5, g6⟩ := hg
  obtain ⟨i1, i2⟩ := hi
  cases hd : g.disableLogging
  case false =>
    cases op <;>
      simp only [step, Lock, Unlock, RLock, RUnlock, hd, Bool.not_false, if_true, ite_true] <;>
      simp only [GoodState, CounterInv, sub64, inc64, dec64, U64] at * <;>
      refine ⟨⟨?_, ?_, ?_, ?_, ?_, ?_⟩, ?_, ?_⟩ <;> omega
  case true =>
    cases op <;>
      simp only [step, Lock, Unlock, RLock, RUnlock, hd, Bool.not_true, if_false, ite_false] <;>
      exact ⟨⟨g1, g2, g3, g4, g5, g6⟩, i1, i2⟩

/-- A serial trace keeps all six counters in uint64 range and preserves
the quiescent counter invariant. -/
theorem run_preserves_inv (g : GlobalFlags) :
    ∀ (ops : List Op) (m : LoggedSyncRWMutex), GoodState m → CounterInv m →
      GoodState (runState g m ops) ∧ CounterInv (runState g m ops)
  | [], _, hg, hi => ⟨hg, hi⟩
  | op :: rest, m, hg, hi => by
    rw [runState_cons]
    have hs := step_preserves_inv g m op hg hi
    exact run_preserves_inv g rest (step g m op).1 hs.1 hs.2

/-- C5: under correctly paired usage with DisableLogging held constant,
every state reached by a serial trace of Lock, Unlock, RLock, RUnlock and
PrintStatus from a fresh lock satisfies totalLocked - totalUnlocked ==
lockedCount and totalrLocked - totalrUnlocked == rLockedCount, the
subtraction taken in Go uint64 arithmetic. -/
theorem quiescent_counter_invariant (g : GlobalFlags) (name : String) (ops : List Op)
    (_hp : wellPairedFrom 0 0 ops = true) :
    CounterInv (runState g (freshMutex name) ops) := by
  have hg : GoodState (freshMutex name) := by
    refine ⟨?_, ?_, ?_, ?_, ?_, ?_⟩ <;> norm_num [freshMutex, U64]
  have hi : CounterInv (freshMutex name) := by
    constructor <;> norm_num [freshMutex, sub64, U64]
  exact (run_preserves_inv g ops (freshMutex name) hg hi).2

/-- C5, witness: a concrete well-paired trace. -/
theorem quiescent_counter_invariant_witness :
    wellPairedFrom 0 0 [Op.lock, Op.rlock, Op.printStatus false, Op.runlock, Op.unlock] = true ∧
    CounterInv (runState ⟨false, false⟩ (freshMutex "T")
      [Op.lock, Op.rlock, Op.printStatus false, Op.runlock, Op.unlock]) :=
  ⟨by decide, quiescent_counter_invariant ⟨false, false⟩ "T"
    [Op.lock, Op.rlock, Op.printStatus false, Op.runlock, Op.unlock] (by decide)⟩

/-- One step started in states with equal counters, under process-wide
flags with equal DisableLogging, yields equal counters and equal
returned values, whatever the debug flags of either side. -/
theorem step_debug_irrelevant (g₁ g₂ : GlobalFlags) (m₁ m₂ : LoggedSyncRWMutex) (op : Op)
    (hg : g₁.disableLogging = g₂.disableLogging)
    (hc : counters m₁ = counters m₂) :
    counters (step g₁ m₁ op).1 = counters (step g₂ m₂ op).1 ∧
    (step g₁ m₁ op).2.2 = (step g₂ m₂ op).2.2 := by
  simp only [counters, Prod.mk.injEq] at hc
  obtain ⟨c1, c2, c3, c4, c5, c6⟩ := hc
  cases hd : g₂.disableLogging <;> rw [hd] at hg
  case false =>
    cases op
    case lock =>
      refine ⟨?_, rfl⟩
      rw [show (step g₁ m₁ Op.lock).1 = (Lock g₁ m₁).1 from rfl,
        show (step g₂ m₂ Op.lock).1 = (Lock g₂ m₂).1 from rfl,
        Lock_state g₁ m₁ hg, Lock_state g₂ m₂ hd]
      simp only [counters, c1, c2, c3, c4, c5, c6]
    case unlock =>
      refine ⟨?_, rfl⟩
      rw [show (step g₁ m₁ Op.unlock).1 = (Unlock g₁ m₁).1 from rfl,
        show (step g₂ m₂ Op.unlock).1 = (Unlock g₂ m₂).1 from rfl,
        Unlock_state g₁ m₁ hg, Unlock_state g₂ m₂ hd]
      simp only [counters, c1, c2, c3, c4, c5, c6]
    case rlock =>
      refine ⟨?_, rfl⟩
      rw [show (step g₁ m₁ Op.rlock).1 = (RLock g₁ m₁).1 from rfl,
        show (step g₂ m₂ Op.rlock).1 = (RLock g₂ m₂).1 from rfl,
        RLock_state g₁ m₁ hg, RLock_state g₂ m₂ hd]
      simp only [counters, c1, c2, c3, c4, c5, c6]
    case runlock =>
      refine ⟨?_, rfl⟩
      rw [show (step g₁ m₁ Op.runlock).1 = (RUnlock g₁ m₁).1 from rfl,
        show (step g₂ m₂ Op.runlock).1 = (RUnlock g₂ m₂).1 from rfl,
        RUnlock_state g₁ m₁ hg, RUnlock_state g₂ m₂ hd]
      simp only [counters, c1, c2, c3, c4, c5, c6]
    case printStatus fp =>
      refine ⟨?_, ?_⟩
      · show counters m₁ = counters m₂
        simp only [counters, c1, c2, c3, c4, c5, c6]
      · show [(PrintStatus g₁ m₁ fp).1] = [(PrintStatus g₂ m₂ fp).1]
        rw [PrintStatus_fst, PrintStatus_fst]
  case true =>
    have e₁ := ops_state_skip g₁ m₁ hg
    have e₂ := ops_state_skip g₂ m₂ hd
    cases op
    case lock =>
      refine ⟨?_, rfl⟩
      rw [show (step g₁ m₁ Op.lock).1 = (Lock g₁ m₁).1 from rfl,
        show (step g₂ m₂ Op.lock).1 = (Lock g₂ m₂).1 from rfl, e₁.1, e₂.1]
      simp only [counters, c1, c2, c3, c4, c5, c6]
    case unlock =>
      refine ⟨?_, rfl⟩
      rw [show (step g₁ m₁ Op.unlock).1 = (Unlock g₁ m₁).1 from rfl,
        show (step g₂ m₂ Op.unlock).1 = (Unlock g₂ m₂).1 from rfl, e₁.2.1, e₂.2.1]
      simp only [counters, c1, c2, c3, c4, c5, c6]
    case rlock =>
      refine ⟨?_, rfl⟩
      rw [show (step g₁ m₁ Op.rlock).1 = (RLock g₁ m₁).1 from rfl,
        show (step g₂ m₂ Op.rlock).1 = (RLock g₂ m₂).1 from rfl, e₁.2.2.1, e₂.2.2.1]
      simp only [counters, c1, c2, c3, c4, c5, c6]
    case runlock =>
      refine ⟨?_, rfl⟩
      rw [show (step g₁ m₁ Op.runlock).1 = (RUnlock g₁ m₁).1 from rfl,
        show (step g₂ m₂ Op.runlock).1 = (RUnlock g₂ m₂).1 from rfl, e₁.2.2.2, e₂.2.2.2]
      simp only [counters, c1, c2, c3, c4, c5, c6]
    case printStatus fp =>
      refine ⟨?_, ?_⟩
      · show counters m₁ = counters m₂
        simp only [counters, c1, c2, c3, c4, c5, c6]
      · show [(PrintStatus g₁ m₁ fp).1] = [(PrintStatus g₂ m₂ fp).1]
        rw [PrintStatus_fst, PrintStatus_fst]

/-- A whole serial trace started in states with equal counters, under
process-wide flags with equal DisableLogging, yields equal final counters
and equal lists of returned values. -/
theorem run_debug_irrelevant (g₁ g₂ : GlobalFlags)
    (hg : g₁.disableLogging = g₂.disableLogging) :
    ∀ (ops : List Op) (m₁ m₂ : LoggedSyncRWMutex), counters m₁ = counters m₂ →
      counters (runState g₁ m₁ ops) = counters (runState g₂ m₂ ops) ∧
      runOuts g₁ m₁ ops = runOuts g₂ m₂ ops
  | [], _, _, hc => ⟨hc, rfl⟩
  | op :: rest, m₁, m₂, hc => by
    have hs := step_debug_irrelevant g₁ g₂ m₁ m₂ op hg hc
    have hr := run_debug_irrelevant g₁ g₂ hg rest (step g₁ m₁ op).1 (step g₂ m₂ op).1 hs.1
    refine ⟨?_, ?_⟩
    · rw [runState_cons, runState_cons]; exact hr.1
    · rw [runOuts_cons, runOuts_cons, hs.2, hr.2]

/-- C10: two runs of the same serial trace from states that differ only
in the debug flags (the per-instance Debug* fields and the process-wide
GlobalDebug), with DisableLogging equal in both runs, produce identical
six counter values and identical operation return values: the debug
flags influence only the emitted log text, never the counter state. -/
theorem debug_noninterference (g₁ g₂ : GlobalFlags) (m₁ m₂ : LoggedSyncRWMutex) (ops : List Op)
    (hg : g₁.disableLogging = g₂.disableLogging)
    (_hname : m₁.name = m₂.name)
    (hc : counters m₁ = counters m₂) :
    counters (runState g₁ m₁ ops) = counters (runState g₂ m₂ ops) ∧
    runOuts g₁ m₁ ops = runOuts g₂ m₂ ops :=
  run_debug_irrelevant g₁ g₂ hg ops m₁ m₂ hc

/-- C10, witness: the same trace with all debug flags on versus all off. -/
theorem debug_noninterference_witness :
    counters (runState ⟨true, false⟩
      { freshMutex "T" with debugAll := true, debugLock := true }
      [Op.lock, Op.printStatus true, Op.unlock, Op.rlock, Op.runlock]) =
      counters (runState ⟨false, false⟩ (freshMutex "T")
        [Op.lock, Op.printStatus true, Op.unlock, Op.rlock, Op.runlock]) ∧
    runOuts ⟨true, false⟩ { freshMutex "T" with debugAll := true, debugLock := true }
      [Op.lock, Op.printStatus true, Op.unlock, Op.rlock, Op.runlock] =
      runOuts ⟨false, false⟩ (freshMutex "T")
        [Op.lock, Op.printStatus true, Op.unlock, Op.rlock, Op.runlock] :=
  debug_noninterference ⟨true, false⟩ ⟨false, false⟩
    { freshMutex "T" with debugAll := true, debugLock := true } (freshMutex "T")
    [Op.lock, Op.printStatus true, Op.unlock, Op.rlock, Op.runlock]
    rfl rfl (by decide)

end LoggedRW
